import Mathlib

/-!
Verification of the TCP framing / single-client connection layer of the
CMSIS-DAP-over-TCP server (`cmsis_dap_tcp.c` / `cmsis_dap_tcp.h`).

The transport is modelled as the list of buffered, unconsumed bytes on the
active client connection (each byte a `Nat < 256`):
* `socket_available()` (ioctl FIONREAD) is the list length;
* `socket_peek(p, n)` (recv with MSG_PEEK) yields `take n` without consuming;
* `socket_read(p, n)` consumes: it yields `take n` and leaves `drop n`;
* `socket_write` is an oracle `List Nat → Int` giving the number of bytes
  the transport reports written for a submitted buffer.
The host is little-endian (the ESP32 target), so `le_to_h_*`/`h_*_to_le`
are identities and struct fields overlay the wire bytes little-endian.
-/

/-- `#define DAP_PKT_HDR_SIGNATURE 0x00504144` ("DAP"). -/
def DAP_PKT_HDR_SIGNATURE : Nat := 0x00504144

/-- `#define DAP_PKT_TYPE_REQUEST 0x01`. -/
def DAP_PKT_TYPE_REQUEST : Nat := 0x01

/-- `#define DAP_PKT_TYPE_RESPONSE 0x02`. -/
def DAP_PKT_TYPE_RESPONSE : Nat := 0x02

/-- `#define CMSIS_DAP_PACKET_SIZE 1024` (max payload, header excluded). -/
def CMSIS_DAP_PACKET_SIZE : Nat := 1024

/-- `sizeof(struct cmsis_dap_tcp_packet_hdr)` = 4 + 2 + 1 + 1 = 8 bytes. -/
def HDR_SIZE : Nat := 8

/-- `struct cmsis_dap_tcp_packet_hdr`: signature u32, length u16 (payload
byte count, header excluded), packet_type u8, reserved u8. -/
structure cmsis_dap_tcp_packet_hdr where
  signature : Nat
  length : Nat
  packet_type : Nat
  reserved : Nat
deriving DecidableEq

/-- Little-endian byte serialization of a `uint32_t` (4 wire bytes). -/
def u32_le_bytes (v : Nat) : List Nat :=
  [v % 256, v / 256 % 256, v / 65536 % 256, v / 16777216 % 256]

/-- Little-endian byte serialization of a `uint16_t` (2 wire bytes). -/
def u16_le_bytes (v : Nat) : List Nat :=
  [v % 256, v / 256 % 256]

/-- Memory/wire layout of `struct cmsis_dap_tcp_packet_hdr` on the
little-endian host: signature at offsets 0..3, length at 4..5, type at 6,
reserved at 7 (no padding). -/
def hdr_bytes (h : cmsis_dap_tcp_packet_hdr) : List Nat :=
  u32_le_bytes h.signature ++ u16_le_bytes h.length ++
    [h.packet_type % 256, h.reserved % 256]

/-- The `signature` field of the header `socket_peek(&header, sizeof(header))`
reads from the front of the buffered stream, after `le_to_h_u32`: the
little-endian `uint32_t` at offsets 0..3.  Missing bytes read as 0; every
use is guarded by an availability check. -/
def hdr_signature (s : List Nat) : Nat :=
  s.getD 0 0 + 256 * s.getD 1 0 + 65536 * s.getD 2 0 + 16777216 * s.getD 3 0

/-- The `length` field of the peeked header, after `le_to_h_u16`: the
little-endian `uint16_t` at offsets 4..5. -/
def hdr_length (s : List Nat) : Nat :=
  s.getD 4 0 + 256 * s.getD 5 0

/-- The `packet_type` field of the peeked header: the byte at offset 6. -/
def hdr_type (s : List Nat) : Nat :=
  s.getD 6 0

/-- Result of one `recv_dap_request(buf, len)` call: the C return value,
the buffered bytes left unconsumed on the socket, and the bytes the call
wrote into the caller's `buf` (empty when no payload was copied). -/
structure RecvResult where
  ret : Int
  stream : List Nat
  written : List Nat
deriving DecidableEq

/-- `recv_dap_request(uint8_t *buf, int len)` (cmsis_dap_tcp.c:241-286),
with the socket state passed explicitly. Branches, in source order:
fewer than `sizeof(header)` bytes available returns 0; a peeked header
with a wrong signature or a type other than REQUEST is discarded
(`socket_read(&header, sizeof(header))`) and -1 returned; fewer than
`sizeof(header) + header.length` bytes available returns 0; a declared
length larger than `len` returns -1 consuming nothing; otherwise the
header is consumed, `header.length` payload bytes are read into `buf`,
and their count is returned.  The two `/* Shouldn't happen */` short-peek
and short-read branches are unreachable here because a buffered stream's
peek/read deliver `min(requested, available)` bytes and availability was
checked first. -/
def recv_dap_request (len : Nat) (stream : List Nat) : RecvResult :=
  if stream.length < HDR_SIZE then ⟨0, stream, []⟩
  else if hdr_signature stream ≠ DAP_PKT_HDR_SIGNATURE then
    ⟨-1, stream.drop HDR_SIZE, []⟩
  else if hdr_type stream ≠ DAP_PKT_TYPE_REQUEST then
    ⟨-1, stream.drop HDR_SIZE, []⟩
  else if stream.length < HDR_SIZE + hdr_length stream then ⟨0, stream, []⟩
  else if len < hdr_length stream then ⟨-1, stream, []⟩
  else
    ⟨(hdr_length stream : Int), stream.drop (HDR_SIZE + hdr_length stream),
      (stream.drop HDR_SIZE).take (hdr_length stream)⟩

/-- The buffer `send_dap_response` assembles in `packet_buf` before its
single `socket_write`: the RESPONSE header (signature, `len` stored into
the `uint16_t` length field, type RESPONSE, reserved 0) followed by the
payload (cmsis_dap_tcp.c:223-229). -/
def dap_response_packet (buf : List Nat) : List Nat :=
  hdr_bytes ⟨DAP_PKT_HDR_SIGNATURE, buf.length, DAP_PKT_TYPE_RESPONSE, 0⟩ ++ buf

/-- Result of one `send_dap_response(buf, len)` call: the C return value and
the buffers submitted to `socket_write`, in order (here always zero or one). -/
structure SendResult where
  ret : Int
  writes : List (List Nat)
deriving DecidableEq

/-- `send_dap_response(uint8_t *buf, int len)` (cmsis_dap_tcp.c:214-236),
parameterized by the write oracle `w`.  A payload larger than
`sizeof(packet_buf) - sizeof(*header)` = 1024 is rejected with -1 before
any write; otherwise header and payload are concatenated and written in
one `socket_write` call, whose negative result is returned as-is, and a
non-negative result other than `sizeof(*header) + len` yields -1
(`return ret == len ? 0 : -1;` after `len += sizeof(*header)`). -/
def send_dap_response (w : List Nat → Int) (buf : List Nat) : SendResult :=
  if buf.length > CMSIS_DAP_PACKET_SIZE then ⟨-1, []⟩
  else
    let packet := dap_response_packet buf
    let r := w packet
    if r < 0 then ⟨r, [packet]⟩
    else if r = ((HDR_SIZE + buf.length : Nat) : Int) then ⟨0, [packet]⟩
    else ⟨-1, [packet]⟩

/-- The header a peer prepends to a REQUEST payload of declared length
`plen` — the same `struct cmsis_dap_tcp_packet_hdr` layout the device
writes, with `packet_type = DAP_PKT_TYPE_REQUEST`, which is the format
`recv_dap_request` accepts. -/
def request_hdr_bytes (plen : Nat) : List Nat :=
  hdr_bytes ⟨DAP_PKT_HDR_SIGNATURE, plen, DAP_PKT_TYPE_REQUEST, 0⟩

/-- A complete REQUEST frame carrying payload `p`: the REQUEST header whose
declared length is `p.length`, followed by `p`. -/
def encode_dap_request (p : List Nat) : List Nat :=
  request_hdr_bytes p.length ++ p

/-- One observable action of the request pump: an invocation of the
external command processor `DAP_ProcessCommand` on a received request
payload, or a buffer submitted to `socket_write`. -/
inductive DapEvent where
  | proc (request : List Nat)
  | send (packet : List Nat)
deriving DecidableEq

/-- The write oracle of a fully functional transport: `write` reports every
submitted byte written. -/
def wholeWrite : List Nat → Int := fun data => (data.length : Int)

/-- `process_dap_requests()` (cmsis_dap_tcp.c:290-313): repeatedly extract a
complete request frame, run it through the command processor `f` (which
stands for `DAP_ProcessCommand`, mapping the received request payload to
the response payload whose length the C code recovers from the packed
return value), transmit the framed response, and continue until
`recv_dap_request` returns 0 or an error occurs.  Returns the C return
value, the remaining buffered stream, and the trace of processor
invocations and transport writes in order. -/
def process_dap_requests (f : List Nat → List Nat) (w : List Nat → Int)
    (stream : List Nat) : Int × List Nat × List DapEvent :=
  let r := recv_dap_request CMSIS_DAP_PACKET_SIZE stream
  if h : r.ret ≤ 0 then (r.ret, r.stream, [])
  else
    let s := send_dap_response w (f r.written)
    let evs := DapEvent.proc r.written :: s.writes.map DapEvent.send
    if s.ret < 0 then (s.ret, r.stream, evs)
    else
      let next := process_dap_requests f w r.stream
      (next.1, next.2.1, evs ++ next.2.2)
termination_by stream.length
decreasing_by
  unfold r at h
  simp only [recv_dap_request] at h ⊢
  repeat' split at h
  all_goals (repeat' split)
  all_goals simp_all
  all_goals omega

/-- The server's global connection state: `client_sockfd`, with 0 meaning
no client is connected (cmsis_dap_tcp.c:28). -/
structure ConnState where
  client_sockfd : Nat
deriving DecidableEq

/-- Outcome of the non-blocking `accept()` at the top of `handle_server`:
no pending peer (EWOULDBLOCK/EAGAIN), a failure with return value `e < 0`,
or a newly accepted socket descriptor `fd`. -/
inductive AcceptResult where
  | wouldBlock
  | fail (e : Int)
  | conn (fd : Nat)
deriving DecidableEq

/-- `handle_server()` (cmsis_dap_tcp.c:115-169), with the accept outcome and
the success of the `fcntl(O_NONBLOCK)` call as oracles.  Returns the C
return value, the new connection state, and the descriptors passed to
`close()` during the call.  With a client already connected the newly
accepted socket is closed and 0 returned; otherwise the new socket becomes
the client (keepalive options are side effects outside the model) and a
failing `fcntl` yields -1 with the client still installed. -/
def handle_server (acc : AcceptResult) (fcntl_ok : Bool) (s : ConnState) :
    Int × ConnState × List Nat :=
  match acc with
  | .wouldBlock => (0, s, [])
  | .fail e => (e, s, [])
  | .conn fd =>
    if s.client_sockfd ≠ 0 then (0, s, [fd])
    else if fcntl_ok then (0, ⟨fd⟩, []) else (-1, ⟨fd⟩, [])

/-- Outcome of the one-byte `recv(fd, &x, 1, MSG_DONTWAIT|MSG_PEEK)` probe in
`socket_disconnected` — the first outcome that is not EINTR, since the C
loop retries EINTR.  `r = 1` when a byte is available, `r = 0` on orderly
peer close, `r = -1` with a transient errno (EAGAIN empty rx queue,
ETIMEDOUT recv timeout, ENOTCONN not connected yet), or `r = -1` with any
other errno `e`. -/
inductive PeekResult where
  | data
  | closed
  | again
  | timedOut
  | notConn
  | hardError (e : Nat)
deriving DecidableEq

/-- `socket_disconnected()` (cmsis_dap_tcp.c:48-69): 1 if the peer has
disconnected (the peek returned 0), 0 if still connected (a byte is
buffered, or the peek failed with a transient errno), `-errno` on any
other peek error. -/
def socket_disconnected (pr : PeekResult) : Int :=
  match pr with
  | .data => 0
  | .closed => 1
  | .again => 0
  | .timedOut => 0
  | .notConn => 0
  | .hardError e => -(e : Int)

/-- `handle_client()` (cmsis_dap_tcp.c:172-183): with no client do nothing;
otherwise close and clear the client whenever `socket_disconnected()`
returns nonzero (disconnected, or a hard probe error — C truthiness).
Always returns 0. -/
def handle_client (pr : PeekResult) (s : ConnState) : Int × ConnState :=
  if s.client_sockfd = 0 then (0, s)
  else if socket_disconnected pr ≠ 0 then (0, ⟨0⟩)
  else (0, s)

/-- Feeding the reassembler a byte stream chunk by chunk: append each chunk
to the buffered stream, call `recv_dap_request` once, and record each
call's return value and the bytes it wrote into the caller's buffer,
together with the bytes still buffered after the last call. -/
def recv_chunks_go (len : Nat) (buf : List Nat) :
    List (List Nat) → List (Int × List Nat) × List Nat
  | [] => ([], buf)
  | c :: cs =>
    let r := recv_dap_request len (buf ++ c)
    let rest := recv_chunks_go len r.stream cs
    ((r.ret, r.written) :: rest.1, rest.2)

/-! ### Basic facts about the frame encodings -/

theorem request_hdr_bytes_eq (plen : Nat) :
    request_hdr_bytes plen = [68, 65, 80, 0, plen % 256, plen / 256 % 256, 1, 0] := by
  simp only [request_hdr_bytes, hdr_bytes, u32_le_bytes, u16_le_bytes,
    DAP_PKT_HDR_SIGNATURE, DAP_PKT_TYPE_REQUEST]
  norm_num

theorem dap_response_packet_eq (b : List Nat) :
    dap_response_packet b =
      68 :: 65 :: 80 :: 0 :: (b.length % 256) :: (b.length / 256 % 256) :: 2 :: 0 :: b := by
  simp only [dap_response_packet, hdr_bytes, u32_le_bytes, u16_le_bytes,
    DAP_PKT_HDR_SIGNATURE, DAP_PKT_TYPE_RESPONSE]
  norm_num

theorem encode_dap_request_eq (p : List Nat) :
    encode_dap_request p =
      68 :: 65 :: 80 :: 0 :: (p.length % 256) :: (p.length / 256 % 256) :: 1 :: 0 :: p := by
  rw [encode_dap_request, request_hdr_bytes_eq]
  rfl

theorem encode_dap_request_append (p rest : List Nat) :
    encode_dap_request p ++ rest =
      68 :: 65 :: 80 :: 0 :: (p.length % 256) :: (p.length / 256 % 256) :: 1 :: 0 ::
        (p ++ rest) := by
  rw [encode_dap_request_eq]
  rfl

theorem encode_dap_request_length (p : List Nat) :
    (encode_dap_request p).length = 8 + p.length := by
  rw [encode_dap_request_eq]
  simp only [List.length_cons]
  omega

theorem dap_response_packet_length (b : List Nat) :
    (dap_response_packet b).length = 8 + b.length := by
  rw [dap_response_packet_eq]
  simp only [List.length_cons]
  omega

/-! ### Header fields of a buffered stream in cons form -/

theorem hdr_signature_cons (b0 b1 b2 b3 b4 b5 b6 b7 : Nat) (t : List Nat) :
    hdr_signature (b0 :: b1 :: b2 :: b3 :: b4 :: b5 :: b6 :: b7 :: t) =
      b0 + 256 * b1 + 65536 * b2 + 16777216 * b3 := rfl

theorem hdr_length_cons (b0 b1 b2 b3 b4 b5 b6 b7 : Nat) (t : List Nat) :
    hdr_length (b0 :: b1 :: b2 :: b3 :: b4 :: b5 :: b6 :: b7 :: t) =
      b4 + 256 * b5 := rfl

theorem hdr_type_cons (b0 b1 b2 b3 b4 b5 b6 b7 : Nat) (t : List Nat) :
    hdr_type (b0 :: b1 :: b2 :: b3 :: b4 :: b5 :: b6 :: b7 :: t) = b6 := rfl

theorem drop_eight_cons (b0 b1 b2 b3 b4 b5 b6 b7 : Nat) (t : List Nat) :
    (b0 :: b1 :: b2 :: b3 :: b4 :: b5 :: b6 :: b7 :: t).drop 8 = t := rfl

theorem length_eight_cons (b0 b1 b2 b3 b4 b5 b6 b7 : Nat) (t : List Nat) :
    (b0 :: b1 :: b2 :: b3 :: b4 :: b5 :: b6 :: b7 :: t).length = 8 + t.length := by
  simp only [List.length_cons]
  omega

theorem hdr_signature_encode (p rest : List Nat) :
    hdr_signature (encode_dap_request p ++ rest) = DAP_PKT_HDR_SIGNATURE := by
  rw [encode_dap_request_append, hdr_signature_cons]
  norm_num [DAP_PKT_HDR_SIGNATURE]

theorem hdr_type_encode (p rest : List Nat) :
    hdr_type (encode_dap_request p ++ rest) = DAP_PKT_TYPE_REQUEST := by
  rw [encode_dap_request_append, hdr_type_cons]
  rfl

theorem hdr_length_encode (p rest : List Nat) (h16 : p.length < 65536) :
    hdr_length (encode_dap_request p ++ rest) = p.length := by
  rw [encode_dap_request_append, hdr_length_cons]
  omega

/-- The header fields the reassembler peeks depend only on the first 8
buffered bytes: appending further bytes does not change them. -/
theorem hdr_signature_of_append (pre t : List Nat) (h8 : 8 ≤ pre.length) :
    hdr_signature (pre ++ t) = hdr_signature pre := by
  unfold hdr_signature
  rw [List.getD_append _ _ _ _ (by omega), List.getD_append _ _ _ _ (by omega),
    List.getD_append _ _ _ _ (by omega), List.getD_append _ _ _ _ (by omega)]

theorem hdr_length_of_append (pre t : List Nat) (h8 : 8 ≤ pre.length) :
    hdr_length (pre ++ t) = hdr_length pre := by
  unfold hdr_length
  rw [List.getD_append _ _ _ _ (by omega), List.getD_append _ _ _ _ (by omega)]

theorem hdr_type_of_append (pre t : List Nat) (h8 : 8 ≤ pre.length) :
    hdr_type (pre ++ t) = hdr_type pre := by
  unfold hdr_type
  rw [List.getD_append _ _ _ _ (by omega)]

/-! ### Behaviour of the reassembler on complete and incomplete frames -/

/-- With a complete REQUEST frame for payload `p` at the head of the
buffered stream and a caller buffer of at least `p.length` bytes,
`recv_dap_request` returns `p.length`, consumes exactly the frame, and
writes exactly `p` into the caller's buffer. -/
theorem recv_complete (len : Nat) (p rest : List Nat) (h16 : p.length < 65536)
    (hlen : p.length ≤ len) :
    recv_dap_request len (encode_dap_request p ++ rest) =
      ⟨(p.length : Int), rest, p⟩ := by
  have hL := hdr_length_encode p rest h16
  have hlen_stream : (encode_dap_request p ++ rest).length = 8 + p.length + rest.length := by
    rw [List.length_append, encode_dap_request_length]
  have hdrop8 : (encode_dap_request p ++ rest).drop 8 = p ++ rest := by
    rw [encode_dap_request_append, drop_eight_cons]
  have hdrop : (encode_dap_request p ++ rest).drop (8 + p.length) = rest := by
    rw [← List.drop_drop, hdrop8, List.drop_left]
  have htake : ((encode_dap_request p ++ rest).drop 8).take p.length = p := by
    rw [hdrop8, List.take_left]
  simp only [recv_dap_request, HDR_SIZE, hdr_signature_encode, hdr_type_encode, hL,
    hlen_stream]
  rw [if_neg (by omega), if_neg (by simp), if_neg (by simp), if_neg (by omega),
    if_neg (by omega), hdrop, htake]

theorem hdr_signature_encode_nil (p : List Nat) :
    hdr_signature (encode_dap_request p) = DAP_PKT_HDR_SIGNATURE := by
  have h := hdr_signature_encode p []
  rwa [List.append_nil] at h

theorem hdr_type_encode_nil (p : List Nat) :
    hdr_type (encode_dap_request p) = DAP_PKT_TYPE_REQUEST := by
  have h := hdr_type_encode p []
  rwa [List.append_nil] at h

theorem hdr_length_encode_nil (p : List Nat) (h16 : p.length < 65536) :
    hdr_length (encode_dap_request p) = p.length := by
  have h := hdr_length_encode p [] h16
  rwa [List.append_nil] at h

theorem recv_complete_nil (len : Nat) (p : List Nat) (h16 : p.length < 65536)
    (hlen : p.length ≤ len) :
    recv_dap_request len (encode_dap_request p) = ⟨(p.length : Int), [], p⟩ := by
  have h := recv_complete len p [] h16 hlen
  rwa [List.append_nil] at h

/-- On any strict prefix of a complete REQUEST frame — fewer buffered bytes
than `HDR_SIZE + declared length`, including fewer than a full header —
`recv_dap_request` returns 0, consumes nothing and writes nothing. -/
theorem recv_incomplete (len : Nat) (p pre t : List Nat) (h16 : p.length < 65536)
    (hsplit : pre ++ t = encode_dap_request p) (hlt : pre.length < 8 + p.length) :
    recv_dap_request len pre = ⟨0, pre, []⟩ := by
  by_cases h8 : pre.length < 8
  · simp only [recv_dap_request, HDR_SIZE]
    rw [if_pos h8]
  · have h8' : 8 ≤ pre.length := by omega
    have hsig : hdr_signature pre = DAP_PKT_HDR_SIGNATURE := by
      have ha := hdr_signature_of_append pre t h8'
      rw [hsplit, hdr_signature_encode_nil] at ha
      exact ha.symm
    have htyp : hdr_type pre = DAP_PKT_TYPE_REQUEST := by
      have ha := hdr_type_of_append pre t h8'
      rw [hsplit, hdr_type_encode_nil] at ha
      exact ha.symm
    have hlenf : hdr_length pre = p.length := by
      have ha := hdr_length_of_append pre t h8'
      rw [hsplit, hdr_length_encode_nil p h16] at ha
      exact ha.symm
    simp only [recv_dap_request, HDR_SIZE, hsig, htyp, hlenf]
    rw [if_neg (by omega), if_neg (by simp), if_neg (by simp), if_pos (by omega)]

/-- With a fully functional transport, `send_dap_response` on a payload
within the 1024-byte bound succeeds and performs exactly one write of the
RESPONSE packet. -/
theorem send_dap_response_ok (b : List Nat) (hb : b.length ≤ 1024) :
    send_dap_response wholeWrite b = ⟨0, [dap_response_packet b]⟩ := by
  unfold send_dap_response wholeWrite
  rw [if_neg (by simp only [CMSIS_DAP_PACKET_SIZE]; omega)]
  simp only [dap_response_packet_length, HDR_SIZE]
  rw [if_neg (by omega)]
  simp

/-! ### Claim C4 -/

/-- Claim C4 (confirmed): for every prefix of a well-formed frame (header
plus declared payload) that is shorter than `header_size + declared
length` — including prefixes shorter than a full header —
`recv_dap_request` returns the NoCompleteFrame outcome 0, never a Frame or
ProtocolError outcome, and consumes no bytes from the buffered stream. -/
theorem c4_partial_arrival (len : Nat) (p pre t : List Nat) (hp : p.length ≤ 1024)
    (hsplit : pre ++ t = encode_dap_request p) (hlt : pre.length < 8 + p.length) :
    recv_dap_request len pre = ⟨0, pre, []⟩ :=
  recv_incomplete len p pre t (by omega) hsplit hlt

theorem c4_witness :
    recv_dap_request 1024 [68, 65, 80, 0, 1, 0, 1] =
      ⟨0, [68, 65, 80, 0, 1, 0, 1], []⟩ :=
  c4_partial_arrival 1024 [170] [68, 65, 80, 0, 1, 0, 1] [0, 170] (by decide)
    (by decide) (by decide)

/-! ### Claim C1 -/

/-- Claim C1 (corrected), counterexample: the codec's encoder
`send_dap_response` emits a RESPONSE-typed frame (type byte 0x02), and
`recv_dap_request` rejects any type other than REQUEST.  Feeding the
encoder's own output for the empty payload into the reassembler yields the
ProtocolError outcome -1 (discarding the header bytes), not the payload
back. -/
theorem c1_counterexample :
    recv_dap_request 1024 (dap_response_packet []) = ⟨-1, [], []⟩ := by decide

theorem recv_chunks_go_spec (p : List Nat) (hp : p.length ≤ 1024) :
    ∀ chunks : List (List Nat), chunks ≠ [] → (∀ c ∈ chunks, c ≠ []) →
      ∀ buf : List Nat, buf ++ chunks.flatten = encode_dap_request p →
      recv_chunks_go 1024 buf chunks =
        (List.replicate (chunks.length - 1) ((0 : Int), ([] : List Nat)) ++
          [((p.length : Int), p)], []) := by
  intro chunks
  induction chunks with
  | nil => intro h; exact absurd rfl h
  | cons c cs ih =>
    intro _ hne buf hjoin
    cases cs with
    | nil =>
      have hbc : buf ++ c = encode_dap_request p := by
        simpa using hjoin
      have hr : recv_dap_request 1024 (buf ++ c) = ⟨(p.length : Int), [], p⟩ := by
        rw [hbc]
        exact recv_complete_nil 1024 p (by omega) hp
      simp [recv_chunks_go, hr]
    | cons c2 cs2 =>
      have hc2 : c2 ≠ [] := hne c2 (by simp)
      have hjoin' : (buf ++ c) ++ (c2 :: cs2).flatten = encode_dap_request p := by
        rw [List.append_assoc]
        simpa using hjoin
      have hflat_pos : 0 < (c2 :: cs2).flatten.length := by
        cases c2 with
        | nil => exact absurd rfl hc2
        | cons a as => simp
      have hlt : (buf ++ c).length < 8 + p.length := by
        have hlenf := congrArg List.length hjoin'
        rw [List.length_append, encode_dap_request_length] at hlenf
        omega
      have hr := recv_incomplete 1024 p (buf ++ c) ((c2 :: cs2).flatten) (by omega)
        hjoin' hlt
      have hrec := ih (by simp) (fun d hd => hne d (by simp [hd])) (buf ++ c)
        (by simpa using hjoin')
      rw [recv_chunks_go, hr]
      simp only []
      rw [hrec]
      simp [List.replicate_succ]

/-- Claim C1 (corrected, amended): the encoder's output round-trips through
the reassembler only once its type byte is REQUEST.  For every payload `p`
with `0 <= len(p) <= 1024`, framing `p` with the packet-header layout and
type REQUEST and feeding the bytes to the reassembler in any split into
one or more nonempty chunks returns 0 with nothing consumed or written on
every call before the last byte arrives, and on the final call returns
exactly `p` (`p.length` bytes) with the whole frame consumed and nothing
left buffered. -/
theorem c1_round_trip_amended (p : List Nat) (chunks : List (List Nat))
    (hp : p.length ≤ 1024) (hne : chunks ≠ []) (hcne : ∀ c ∈ chunks, c ≠ [])
    (hjoin : chunks.flatten = encode_dap_request p) :
    recv_chunks_go 1024 [] chunks =
      (List.replicate (chunks.length - 1) ((0 : Int), ([] : List Nat)) ++
        [((p.length : Int), p)], []) :=
  recv_chunks_go_spec p hp chunks hne hcne [] (by simpa using hjoin)

theorem c1_witness :
    recv_chunks_go 1024 [] [[68], [65, 80, 0, 1, 0, 1, 0, 171]] =
      ([((0 : Int), ([] : List Nat)), ((1 : Int), [171])], []) :=
  c1_round_trip_amended [171] [[68], [65, 80, 0, 1, 0, 1, 0, 171]] (by decide)
    (by decide) (by decide) (by decide)

/-! ### Claim C2 -/

/-- Claim C2 (corrected), counterexample: a buffered stream holding exactly
the 8 header bytes of a REQUEST whose declared length is 2000 (exceeding
the 1024-byte receive buffer) makes `recv_dap_request` return 0
(NoCompleteFrame), not the negative ProtocolError the claim asserts: the
oversized length is only rejected once `HDR_SIZE + 2000` bytes are
buffered, because the availability check at cmsis_dap_tcp.c:265 runs
before the buffer-capacity check at line 269. -/
theorem c2_counterexample :
    recv_dap_request 1024 [68, 65, 80, 0, 208, 7, 1, 0] =
      ⟨0, [68, 65, 80, 0, 208, 7, 1, 0], []⟩ := by decide

/-- Claim C2 (corrected, amended): for a buffered stream starting with a
correct-signature REQUEST header whose declared length `plen` exceeds the
caller's buffer capacity `len`, `recv_dap_request` yields the ProtocolError
result -1 only once at least `HDR_SIZE + plen` bytes are buffered, and the
NoCompleteFrame result 0 before that; in both cases it consumes no bytes
from the stream and never copies any payload byte. -/
theorem c2_oversized_amended (len plen : Nat) (body : List Nat) (hlp : len < plen)
    (h16 : plen < 65536) :
    recv_dap_request len (request_hdr_bytes plen ++ body) =
      if body.length < plen then ⟨0, request_hdr_bytes plen ++ body, []⟩
      else ⟨-1, request_hdr_bytes plen ++ body, []⟩ := by
  have hcons : request_hdr_bytes plen ++ body =
      68 :: 65 :: 80 :: 0 :: (plen % 256) :: (plen / 256 % 256) :: 1 :: 0 :: body := by
    rw [request_hdr_bytes_eq]
    rfl
  have hsig : hdr_signature (request_hdr_bytes plen ++ body) = DAP_PKT_HDR_SIGNATURE := by
    rw [hcons, hdr_signature_cons]
    norm_num [DAP_PKT_HDR_SIGNATURE]
  have htyp : hdr_type (request_hdr_bytes plen ++ body) = DAP_PKT_TYPE_REQUEST := by
    rw [hcons, hdr_type_cons]
    rfl
  have hlen2 : hdr_length (request_hdr_bytes plen ++ body) = plen := by
    rw [hcons, hdr_length_cons]
    omega
  have hlens : (request_hdr_bytes plen ++ body).length = 8 + body.length := by
    rw [hcons, length_eight_cons]
  simp only [recv_dap_request, HDR_SIZE, hsig, htyp, hlen2, hlens]
  rw [if_neg (by omega), if_neg (by simp), if_neg (by simp)]
  by_cases hb : body.length < plen
  · rw [if_pos (by omega), if_pos hb]
  · rw [if_neg (by omega), if_pos (by omega), if_neg hb]

theorem c2_witness :
    recv_dap_request 1024 (request_hdr_bytes 2000 ++ List.replicate 2000 7) =
      if (List.replicate 2000 7 : List Nat).length < 2000 then
        ⟨0, request_hdr_bytes 2000 ++ List.replicate 2000 7, []⟩
      else ⟨-1, request_hdr_bytes 2000 ++ List.replicate 2000 7, []⟩ :=
  c2_oversized_amended 1024 2000 (List.replicate 2000 7) (by decide) (by decide)

/-! ### Claim C3 -/

/-- Claim C3 (corrected), counterexample: 4 garbage bytes followed by a
complete valid REQUEST frame with payload `[170]`.  The first call to the
reassembler reports the ProtocolError -1 but discards a full header's
worth — 8 bytes — swallowing the 4 garbage bytes and the first 4 bytes of
the valid frame; the next call then returns 0 with the remaining 5 bytes
untouched, so the valid frame's payload is never returned, contradicting
the claimed recovery (and the claimed "exactly the examined header bytes"
equalling the 4 garbage bytes). -/
theorem c3_counterexample :
    recv_dap_request 1024 ([0, 0, 0, 0] ++ encode_dap_request [170]) =
      ⟨-1, [1, 0, 1, 0, 170], []⟩ ∧
    recv_dap_request 1024 [1, 0, 1, 0, 170] = ⟨0, [1, 0, 1, 0, 170], []⟩ := by
  decide

/-- Claim C3 (corrected, amended): the reassembler discards exactly the 8
examined header bytes on a signature mismatch, so recovery needs 8 bytes
of garbage, not 4: for any 8-byte prefix whose signature field does not
match, followed by a complete valid REQUEST frame, the first call yields
exactly one ProtocolError (-1) and discards exactly those 8 bytes, after
which the valid frame is reassembled intact on the subsequent call. -/
theorem c3_bad_signature_amended (g p : List Nat) (hg : g.length = 8)
    (hsig : hdr_signature g ≠ DAP_PKT_HDR_SIGNATURE) (hp : p.length ≤ 1024) :
    recv_dap_request 1024 (g ++ encode_dap_request p) =
      ⟨-1, encode_dap_request p, []⟩ ∧
    recv_dap_request 1024 (encode_dap_request p) = ⟨(p.length : Int), [], p⟩ := by
  constructor
  · have hlen : (g ++ encode_dap_request p).length = 8 + (8 + p.length) := by
      rw [List.length_append, hg, encode_dap_request_length]
    have hsig' : hdr_signature (g ++ encode_dap_request p) = hdr_signature g :=
      hdr_signature_of_append g _ (by omega)
    have hdropg : (g ++ encode_dap_request p).drop 8 = encode_dap_request p := by
      rw [← hg, List.drop_left]
    simp only [recv_dap_request, HDR_SIZE, hsig', hlen, hdropg]
    rw [if_neg (by omega), if_pos hsig]
  · exact recv_complete_nil 1024 p (by omega) hp

theorem c3_witness :
    recv_dap_request 1024 ([1, 2, 3, 4, 5, 6, 7, 8] ++ encode_dap_request [170]) =
      ⟨-1, encode_dap_request [170], []⟩ ∧
    recv_dap_request 1024 (encode_dap_request [170]) = ⟨(1 : Int), [], [170]⟩ :=
  c3_bad_signature_amended [1, 2, 3, 4, 5, 6, 7, 8] [170] (by decide) (by decide)
    (by decide)

/-! ### Claim C10 -/

/-- Claim C10 (confirmed): `recv_dap_request(buf, len)` writes at most `len`
bytes into `buf`; the payload is copied only when the header's declared
length is at most `len`; a positive return value `n` means exactly `n`
bytes were written with `n` equal to the declared length and `n ≤ len`;
and on every zero or negative return no payload byte is written. -/
theorem c10_buffer_safety (len : Nat) (stream : List Nat) :
    ((recv_dap_request len stream).written.length ≤ len) ∧
    ((recv_dap_request len stream).ret ≤ 0 → (recv_dap_request len stream).written = []) ∧
    (0 < (recv_dap_request len stream).ret →
      (recv_dap_request len stream).ret = (hdr_length stream : Int) ∧
      (recv_dap_request len stream).written.length = hdr_length stream ∧
      hdr_length stream ≤ len) := by
  unfold recv_dap_request
  repeat' split
  · simp
  · simp
  · simp
  · simp
  · simp
  · rename_i h1 h2 h3 h4 h5
    simp only [HDR_SIZE] at h4 h5
    refine ⟨?_, ?_, ?_⟩
    · simp only [List.length_take, List.length_drop]
      omega
    · intro hr
      simp only at hr
      have hz : hdr_length stream = 0 := by omega
      simp [hz]
    · intro _
      refine ⟨rfl, ?_, by omega⟩
      simp only [List.length_take, List.length_drop, HDR_SIZE]
      omega

theorem c10_witness :
    0 < (recv_dap_request 1024 (encode_dap_request [9])).ret ∧
    ((recv_dap_request 1024 (encode_dap_request [9])).ret =
        (hdr_length (encode_dap_request [9]) : Int) ∧
      (recv_dap_request 1024 (encode_dap_request [9])).written.length =
        hdr_length (encode_dap_request [9]) ∧
      hdr_length (encode_dap_request [9]) ≤ 1024) :=
  ⟨by decide, (c10_buffer_safety 1024 (encode_dap_request [9])).2.2 (by decide)⟩

/-! ### Claim C6 -/

/-- Claim C6 (confirmed): with one client connection already active
(`client_sockfd ≠ 0`), accepting a second pending connection makes
`handle_server` immediately close the newly accepted descriptor, return
success (0), and leave the active connection's state untouched — so at
most one client connection exists after every tick (the state holds a
single `client_sockfd`, and it is unchanged here). -/
theorem c6_single_peer (fd : Nat) (fcntl_ok : Bool) (s : ConnState)
    (h : s.client_sockfd ≠ 0) :
    handle_server (AcceptResult.conn fd) fcntl_ok s = (0, s, [fd]) := by
  simp [handle_server, h]

theorem c6_witness :
    handle_server (AcceptResult.conn 7) true ⟨5⟩ = (0, ⟨5⟩, [7]) :=
  c6_single_peer 7 true ⟨5⟩ (by decide)

/-! ### Claim C7 -/

/-- Claim C7 (confirmed): `send_dap_response` performs no write and fails
when the payload exceeds 1024 bytes, performs exactly one write of the
assembled packet otherwise, returns 0 exactly when that single write
reports all `HDR_SIZE + payload` bytes written, and returns a negative
value in every other case (transport error or short write); it never
retries or resumes a partial write, as the write list shows. -/
theorem c7_send_errors (w : List Nat → Int) (buf : List Nat) :
    ((send_dap_response w buf).writes =
      if buf.length ≤ CMSIS_DAP_PACKET_SIZE then [dap_response_packet buf] else []) ∧
    ((send_dap_response w buf).ret = 0 ↔
      buf.length ≤ CMSIS_DAP_PACKET_SIZE ∧
        w (dap_response_packet buf) = ((HDR_SIZE + buf.length : Nat) : Int)) ∧
    ((send_dap_response w buf).ret = 0 ∨ (send_dap_response w buf).ret < 0) := by
  unfold send_dap_response
  by_cases hb : buf.length > CMSIS_DAP_PACKET_SIZE
  · rw [if_pos hb]
    refine ⟨by rw [if_neg (by omega)], ?_, by simp⟩
    simp only [SendResult.ret]
    constructor
    · intro h
      exact absurd h (by simp)
    · intro h
      exact absurd h.1 (by omega)
  · rw [if_neg hb]
    simp only []
    by_cases hw : w (dap_response_packet buf) < 0
    · rw [if_pos hw]
      refine ⟨by rw [if_pos (by omega)], ?_, Or.inr hw⟩
      simp only [SendResult.ret]
      constructor
      · intro h
        omega
      · intro h
        rw [h.2] at hw
        omega
    · rw [if_neg hw]
      by_cases he : w (dap_response_packet buf) = ((HDR_SIZE + buf.length : Nat) : Int)
      · rw [if_pos he]
        refine ⟨by rw [if_pos (by omega)], ?_, Or.inl rfl⟩
        simp only [SendResult.ret]
        exact ⟨fun _ => ⟨by omega, he⟩, fun _ => by trivial⟩
      · rw [if_neg he]
        refine ⟨by rw [if_pos (by omega)], ?_, by simp⟩
        simp only [SendResult.ret]
        constructor
        · intro h
          exact absurd h (by simp)
        · intro h
          exact absurd h.2 he

/-! ### Claim C8 -/

/-- Claim C8 (confirmed): for every payload of length `0 <= n <= 1024`, the
byte sequence `send_dap_response` submits to the transport is exactly the
4-byte signature constant little-endian (`44 41 50 00`), then `n` as a
little-endian 16-bit length, then the type byte 2 (RESPONSE), then a zero
reserved byte, then the `n` payload bytes, all concatenated into a single
write call. -/
theorem c8_wire_format (p : List Nat) (w : List Nat → Int) (hp : p.length ≤ 1024) :
    (send_dap_response w p).writes =
      [68 :: 65 :: 80 :: 0 :: (p.length % 256) :: (p.length / 256) :: 2 :: 0 :: p] := by
  have hpkt : dap_response_packet p =
      68 :: 65 :: 80 :: 0 :: (p.length % 256) :: (p.length / 256) :: 2 :: 0 :: p := by
    rw [dap_response_packet_eq]
    have : p.length / 256 % 256 = p.length / 256 := by omega
    rw [this]
  unfold send_dap_response
  rw [if_neg (by simp only [CMSIS_DAP_PACKET_SIZE]; omega)]
  simp only []
  split
  · rw [hpkt]
  · split
    · rw [hpkt]
    · rw [hpkt]

theorem c8_witness :
    (send_dap_response wholeWrite [7]).writes = [[68, 65, 80, 0, 1, 0, 2, 0, 7]] :=
  c8_wire_format [7] wholeWrite (by decide)

/-! ### Claim C9 -/

/-- Claim C9 (confirmed): the disconnect probe `socket_disconnected` returns
1 ("peer has closed") when the one-byte non-consuming peek yields a
zero-length result, returns 0 ("still connected") when the peek fails for
a transient reason (would-block, recv timeout, not yet connected) or a
byte is available, and returns a negative value on any other (hard) peek
error; `handle_client` tears the connection down exactly when the probe's
result is nonzero, so a hard error also closes the connection, and after
the peer closes its write side the very next probe reports disconnected
and closes the connection. -/
theorem c9_disconnect (pr : PeekResult) (s : ConnState) (hs : s.client_sockfd ≠ 0) :
    socket_disconnected PeekResult.closed = 1 ∧
    socket_disconnected PeekResult.data = 0 ∧
    socket_disconnected PeekResult.again = 0 ∧
    socket_disconnected PeekResult.timedOut = 0 ∧
    socket_disconnected PeekResult.notConn = 0 ∧
    (∀ e : Nat, 0 < e → socket_disconnected (PeekResult.hardError e) < 0) ∧
    (socket_disconnected pr ≠ 0 → handle_client pr s = (0, ⟨0⟩)) ∧
    handle_client PeekResult.closed s = (0, ⟨0⟩) := by
  refine ⟨rfl, rfl, rfl, rfl, rfl, ?_, ?_, ?_⟩
  · intro e he
    simp only [socket_disconnected]
    omega
  · intro hnz
    simp [handle_client, hs, hnz]
  · simp [handle_client, hs, socket_disconnected]

theorem c9_witness :
    socket_disconnected PeekResult.closed = 1 ∧
    socket_disconnected PeekResult.data = 0 ∧
    socket_disconnected PeekResult.again = 0 ∧
    socket_disconnected PeekResult.timedOut = 0 ∧
    socket_disconnected PeekResult.notConn = 0 ∧
    (∀ e : Nat, 0 < e → socket_disconnected (PeekResult.hardError e) < 0) ∧
    (socket_disconnected PeekResult.closed ≠ 0 →
      handle_client PeekResult.closed ⟨5⟩ = (0, ⟨0⟩)) ∧
    handle_client PeekResult.closed ⟨5⟩ = (0, ⟨0⟩) :=
  c9_disconnect PeekResult.closed ⟨5⟩ (by decide)

/-! ### Claim C5 -/

/-- Claim C5 (corrected), counterexample: one complete REQUEST frame with a
zero-length payload is buffered before a single invocation of the
request-pump loop.  `process_dap_requests` consumes the 8-byte frame (the
remaining stream is empty) but returns 0 without ever invoking the
command processor and without transmitting any response — the empty trace
— because the zero byte count `recv_dap_request` returns for this frame
is exactly the NoCompleteFrame result that ends the drain loop
(`if(ret <= 0) return ret;`, cmsis_dap_tcp.c:297-298). -/
theorem c5_counterexample :
    process_dap_requests (fun _ => [0]) wholeWrite (encode_dap_request []) =
      (0, [], []) := by
  have hr : recv_dap_request CMSIS_DAP_PACKET_SIZE (encode_dap_request []) =
      ⟨0, [], []⟩ := by decide
  rw [process_dap_requests, hr]
  simp

/-- Claim C5 (corrected, amended): when `n` complete request frames, each
with a nonempty payload, are all buffered before one invocation of the
request-pump loop, that single invocation extracts all `n` frames in
submission order, invokes the command processor once per frame in that
order, transmits the `n` framed responses in the same order with each
response written before the next request is processed (the event trace
alternates processor invocation and response write per frame), and
consumes the whole stream.  The restriction to nonempty payloads is
forced: a zero-length-payload frame is consumed without invoking the
processor and ends the drain loop (see the counterexample). -/
theorem c5_pipelining_amended (f : List Nat → List Nat) :
    ∀ ps : List (List Nat),
      (∀ p ∈ ps, p ≠ [] ∧ p.length ≤ 1024 ∧ (f p).length ≤ 1024) →
      process_dap_requests f wholeWrite ((ps.map encode_dap_request).flatten) =
        (0, [],
          (ps.map (fun p =>
            [DapEvent.proc p, DapEvent.send (dap_response_packet (f p))])).flatten) := by
  intro ps
  induction ps with
  | nil =>
    intro _
    have hr : recv_dap_request CMSIS_DAP_PACKET_SIZE ([] : List Nat) = ⟨0, [], []⟩ := by
      decide
    simp only [List.map_nil, List.flatten_nil]
    rw [process_dap_requests, hr]
    simp
  | cons p ps ih =>
    intro hps
    obtain ⟨hpne, hple, hfle⟩ := hps p (by simp)
    have hflat : ((p :: ps).map encode_dap_request).flatten =
        encode_dap_request p ++ (ps.map encode_dap_request).flatten := by
      simp
    have hr : recv_dap_request CMSIS_DAP_PACKET_SIZE
        (encode_dap_request p ++ (ps.map encode_dap_request).flatten) =
        ⟨(p.length : Int), (ps.map encode_dap_request).flatten, p⟩ :=
      recv_complete CMSIS_DAP_PACKET_SIZE p _ (by omega)
        (by simp only [CMSIS_DAP_PACKET_SIZE]; exact hple)
    have hs : send_dap_response wholeWrite (f p) = ⟨0, [dap_response_packet (f p)]⟩ :=
      send_dap_response_ok (f p) hfle
    have hpos : ¬((p.length : Int) ≤ 0) := by
      have h0 : 0 < p.length := List.length_pos.mpr hpne
      omega
    rw [hflat, process_dap_requests, hr]
    simp only []
    rw [dif_neg hpos, hs]
    simp only []
    rw [if_neg (by norm_num)]
    rw [ih (fun q hq => hps q (by simp [hq]))]
    simp

theorem c5_witness :
    process_dap_requests (fun _ => [0]) wholeWrite
      ((([[1], [2], [3]] : List (List Nat)).map encode_dap_request).flatten) =
      (0, [],
        (([[1], [2], [3]] : List (List Nat)).map (fun p =>
          [DapEvent.proc p,
            DapEvent.send (dap_response_packet ((fun _ => [0]) p))])).flatten) :=
  c5_pipelining_amended (fun _ => [0]) [[1], [2], [3]] (by decide)
